import Mathlib

/-!
# Verification of the interactive 3D portfolio site

A shallow embedding, in Lean 4, of the scroll / scene / terminal coordination
logic of the portfolio website (files `src/js/main.js` and
`src/js/modules/{SceneManager,ScrollController,TerminalUI,MobileController}.js`).

Numeric values (scroll progress, velocities, pixel offsets, durations) are
modelled as rationals; DOM side effects are modelled as explicit fields of
state structures.  Each definition is a direct transcription of the
corresponding JavaScript method, with the source file and method named in its
doc comment.
-/

/-- `Math.max(0, Math.min(1, x))`, the clamping idiom used throughout
`ScrollController` and `SceneManager`. -/
def clamp01 (x : ℚ) : ℚ := max 0 (min 1 x)

/-! ## SceneManager (src/js/modules/SceneManager.js)

The fields of `SceneState` are the `SceneManager` instance fields touched by
`updateScrollProgress` and `setupDisassemblyAnimation`: `this.scrollProgress`,
`this.anime` (whether the dynamic `import` of anime.js has completed) and
`this.disassemblyTimeline` (an anime.js timeline: modelled by its duration and
its current seek position).  The `#progress-fill` bar width is kept as well. -/

/-- An anime.js timeline as `SceneManager` observes it: a fixed total
`duration` and the current seek `position`. -/
structure Timeline where
  duration : ℚ
  position : ℚ
  deriving Repr, DecidableEq

/-- The `SceneManager` state relevant to scroll syncing. -/
structure SceneState where
  scrollProgress : ℚ
  animeLoaded : Bool
  disassemblyTimeline : Option Timeline
  progressFillWidth : Option ℚ
  deriving Repr, DecidableEq

/-- `SceneManager` constructor: `this.scrollProgress = 0`,
`this.disassemblyTimeline = null`, anime.js not yet imported. -/
def initialSceneState : SceneState :=
  { scrollProgress := 0
    animeLoaded := false
    disassemblyTimeline := none
    progressFillWidth := none }

/-- `SceneManager.updateScrollProgress(progress)` (SceneManager.js 468-482):
clamps the incoming progress to `[0,1]`, stores it, and, when
`this.disassemblyTimeline && this.anime`, seeks the timeline to
`scrollProgress * timeline.duration`; finally widens `#progress-fill` to
`scrollProgress * 100` percent. -/
def SceneManager.updateScrollProgress (s : SceneState) (progress : ℚ) : SceneState :=
  let sp := clamp01 progress
  let tl :=
    match s.disassemblyTimeline with
    | some t => if s.animeLoaded then some { t with position := sp * t.duration } else some t
    | none => none
  { s with
      scrollProgress := sp
      disassemblyTimeline := tl
      progressFillWidth := some (sp * 100) }

/-- `SceneManager.setupDisassemblyAnimation` (SceneManager.js 284-319): the
dynamic-import callback sets `this.anime` and then builds the paused
disassembly timeline, so both become available in the same step.  The total
duration the timeline ends up with is abstracted as `d`. -/
def SceneManager.setupDisassemblyAnimation (s : SceneState) (d : ℚ) : SceneState :=
  { s with animeLoaded := true, disassemblyTimeline := some { duration := d, position := 0 } }

/-- The operations that mutate the `SceneManager` scroll/timeline fields:
`setupDisassemblyAnimation` (the only writer of `this.anime` and
`this.disassemblyTimeline`) and `updateScrollProgress` (the only writer of
`this.scrollProgress` after construction). -/
inductive SceneOp where
  | setupDisassembly (d : ℚ)
  | updateScroll (p : ℚ)
  deriving Repr

def SceneState.step (s : SceneState) : SceneOp → SceneState
  | .setupDisassembly d => SceneManager.setupDisassemblyAnimation s d
  | .updateScroll p => SceneManager.updateScrollProgress s p

/-- Run a sequence of `SceneManager` operations from the constructor state. -/
def runScene (ops : List SceneOp) : SceneState :=
  ops.foldl SceneState.step initialSceneState

/-- The current seek position of the disassembly timeline, if one exists. -/
def SceneState.timelinePosition (s : SceneState) : Option ℚ :=
  s.disassemblyTimeline.map Timeline.position

/-! ## ScrollController (src/js/modules/ScrollController.js)

`ScrollState` gathers the `ScrollController` fields the claims are about
(`this.scrollProgress`, `this.currentPhase`), the `SceneManager` it drives,
and the two pieces of UI it touches through its collaborators: the
`.terminal-hint` element text (set through `this.terminalUI.showHint`) and the
`userData.clickable` flag of the laptop parts. -/

/-- `this.phases` of ScrollController.js (IDLE 0, OPENING 1, DISASSEMBLING 2,
COMPLETE 3). -/
inductive Phase where
  | IDLE
  | OPENING
  | DISASSEMBLING
  | COMPLETE
  deriving Repr, DecidableEq

/-- The numeric value of a phase, as in `this.phases`. -/
def Phase.toNum : Phase → Nat
  | .IDLE => 0
  | .OPENING => 1
  | .DISASSEMBLING => 2
  | .COMPLETE => 3

/-- `ScrollController.getPhaseFromProgress(progress)` (ScrollController.js
196-201). -/
def getPhaseFromProgress (progress : ℚ) : Phase :=
  if progress < 1/10 then .IDLE
  else if progress < 3/10 then .OPENING
  else if progress < 9/10 then .DISASSEMBLING
  else .COMPLETE

/-- The per-phase hint texts of `ScrollController.updateTerminalHint`
(ScrollController.js 272-284). -/
def phaseHint : Phase → String
  | .IDLE => "Scroll down to begin your journey"
  | .OPENING => "The laptop is opening..."
  | .DISASSEMBLING => "Click on parts or continue scrolling"
  | .COMPLETE => "Ready for exploration!"

/-- The hint each `handle*Phase` method passes to `showHint` before
`updateTerminalHint` runs (ScrollController.js 228-254). -/
def phaseHandlerHint : Phase → String
  | .IDLE => "Scroll down to begin the journey..."
  | .OPENING => "Laptop is opening..."
  | .DISASSEMBLING => "Parts are disassembling... Click on them to explore!"
  | .COMPLETE => "Disassembly complete! Use terminal commands to navigate."

/-- The `ScrollController` state, together with the scene it drives and the
terminal-hint element it writes. -/
structure ScrollState where
  scrollProgress : ℚ
  currentPhase : Phase
  scene : SceneState
  terminalHint : Option String
  partsClickable : Bool
  deriving Repr, DecidableEq

/-- ScrollController constructor state: `this.scrollProgress = 0`,
`this.currentPhase = this.phases.IDLE`. -/
def initialScrollState : ScrollState :=
  { scrollProgress := 0
    currentPhase := .IDLE
    scene := initialSceneState
    terminalHint := none
    partsClickable := false }

/-- `ScrollController.onPhaseChange(oldPhase, newPhase)` (ScrollController.js
203-226): dispatches to the `handle*Phase` method for the new phase (each of
which shows its own hint, and `handleDisassemblyPhase` additionally marks the
laptop parts clickable), then overwrites the hint via
`updateTerminalHint(newPhase)`. -/
def ScrollController.onPhaseChange (s : ScrollState) (newPhase : Phase) : ScrollState :=
  let s1 :=
    match newPhase with
    | .OPENING => { s with terminalHint := some (phaseHandlerHint .OPENING) }
    | .DISASSEMBLING =>
        { s with terminalHint := some (phaseHandlerHint .DISASSEMBLING), partsClickable := true }
    | .COMPLETE => { s with terminalHint := some (phaseHandlerHint .COMPLETE) }
    | .IDLE => { s with terminalHint := some (phaseHandlerHint .IDLE) }
  { s1 with terminalHint := some (phaseHint newPhase) }

/-- `ScrollController.updatePhase()` (ScrollController.js 187-194). -/
def ScrollController.updatePhase (s : ScrollState) : ScrollState :=
  let newPhase := getPhaseFromProgress s.scrollProgress
  if newPhase ≠ s.currentPhase then
    { ScrollController.onPhaseChange s newPhase with currentPhase := newPhase }
  else s

/-- `ScrollController.updateScrollProgress(delta)` (ScrollController.js
175-179): adds the delta, clamps to `[0,1]`, forwards the clamped value to
`SceneManager.updateScrollProgress` and recomputes the phase. -/
def ScrollController.updateScrollProgress (s : ScrollState) (delta : ℚ) : ScrollState :=
  let sp := clamp01 (s.scrollProgress + delta)
  ScrollController.updatePhase
    { s with scrollProgress := sp, scene := SceneManager.updateScrollProgress s.scene sp }

/-- `ScrollController.setScrollProgress(value)` (ScrollController.js
181-185). -/
def ScrollController.setScrollProgress (s : ScrollState) (value : ℚ) : ScrollState :=
  let sp := clamp01 value
  ScrollController.updatePhase
    { s with scrollProgress := sp, scene := SceneManager.updateScrollProgress s.scene sp }

/-- `ScrollController.handleWheel(event)` (ScrollController.js 111-118):
`delta = event.deltaY > 0 ? 1 : -1`, then `updateScrollProgress(delta * 0.02)`. -/
def ScrollController.handleWheel (s : ScrollState) (deltaY : ℚ) : ScrollState :=
  ScrollController.updateScrollProgress s ((if 0 < deltaY then (1 : ℚ) else -1) * (2/100))

/-- `ScrollController.handleTouchMove(event)` (ScrollController.js 125-138):
`deltaY = touchStartY - touchY`; when `|deltaY| > 10`, scroll by
`(deltaY > 0 ? 1 : -1) * 0.01`. -/
def ScrollController.handleTouchMove (s : ScrollState) (deltaY : ℚ) : ScrollState :=
  if 10 < |deltaY| then
    ScrollController.updateScrollProgress s ((if 0 < deltaY then (1 : ℚ) else -1) * (1/100))
  else s

/-- The keys `ScrollController.handleKeyboard` distinguishes
(ScrollController.js 144-173). -/
inductive ScrollKey where
  | arrowDown
  | pageDown
  | space
  | arrowUp
  | pageUp
  | homeKey
  | endKey
  | otherKey
  deriving Repr, DecidableEq

/-- `ScrollController.handleKeyboard(event)` (ScrollController.js 144-173). -/
def ScrollController.handleKeyboard (s : ScrollState) (k : ScrollKey) : ScrollState :=
  match k with
  | .arrowDown | .pageDown | .space => ScrollController.updateScrollProgress s (1/10)
  | .arrowUp | .pageUp => ScrollController.updateScrollProgress s (-(1/10))
  | .homeKey => ScrollController.setScrollProgress s 0
  | .endKey => ScrollController.setScrollProgress s 1
  | .otherKey => s

/-- `snapThreshold` of `ScrollController.snapToPhase` (ScrollController.js
312). -/
def snapThreshold : ℚ := 5/100

/-- `phaseProgresses` of `ScrollController.snapToPhase` (ScrollController.js
313). -/
def phaseProgresses : List ℚ := [0, 25/100, 65/100, 1]

/-- `ScrollController.snapToPhase()` (ScrollController.js 311-321): the `for`
loop with `break` applies `setScrollProgress` to the first phase progress whose
distance from the current progress is under the threshold, and does nothing
when none qualifies. -/
def ScrollController.snapToPhase (s : ScrollState) : ScrollState :=
  match phaseProgresses.find? (fun v => |s.scrollProgress - v| < snapThreshold) with
  | some v => ScrollController.setScrollProgress s v
  | none => s

/-- The ease-out-cubic easing of `ScrollController.animateToProgress`
(ScrollController.js 401). -/
def easeOutCubic (t : ℚ) : ℚ := 1 - (1 - t)^3

/-- One `requestAnimationFrame` callback of
`ScrollController.animateToProgress(targetProgress, duration)`
(ScrollController.js 391-415): `progress = min(elapsed / duration, 1)`,
`eased = 1 - (1 - progress)^3`, then
`setScrollProgress(startProgress + (targetProgress - startProgress) * eased)`. -/
def ScrollController.animFrame (s : ScrollState)
    (startProgress targetProgress duration elapsed : ℚ) : ScrollState :=
  let progress := min (elapsed / duration) 1
  let eased := easeOutCubic progress
  ScrollController.setScrollProgress s
    (startProgress + (targetProgress - startProgress) * eased)

/-- Whether the frame at `elapsed` is the final one, i.e. whether
`animateToProgress` resolves its promise instead of requesting another frame
(`progress < 1` requests another frame, otherwise `resolve()`;
ScrollController.js 406-410). -/
def ScrollController.animFrameResolves (duration elapsed : ℚ) : Bool :=
  if min (elapsed / duration) 1 < 1 then false else true

/-- The scroll-progress-mutating entry points of `ScrollController`: wheel,
touch move, keyboard, the scroll-end snap, one animation frame of
`animateToProgress`, and the two raw mutators. -/
inductive ScrollOp where
  | wheel (deltaY : ℚ)
  | touchMove (deltaY : ℚ)
  | key (k : ScrollKey)
  | scrollEndSnap
  | animFrame (startProgress targetProgress duration elapsed : ℚ)
  | setProgress (v : ℚ)
  | updateProgress (d : ℚ)
  deriving Repr

def ScrollState.step (s : ScrollState) : ScrollOp → ScrollState
  | .wheel d => ScrollController.handleWheel s d
  | .touchMove d => ScrollController.handleTouchMove s d
  | .key k => ScrollController.handleKeyboard s k
  | .scrollEndSnap => ScrollController.snapToPhase s
  | .animFrame a b c d => ScrollController.animFrame s a b c d
  | .setProgress v => ScrollController.setScrollProgress s v
  | .updateProgress d => ScrollController.updateScrollProgress s d

/-- Run a sequence of scroll operations from the constructor state. -/
def runScroll (ops : List ScrollOp) : ScrollState :=
  ops.foldl ScrollState.step initialScrollState

/-! ## MobileController (src/js/modules/MobileController.js)

Touch-gesture recognition.  `TouchState` gathers the fields written by
`handleTouchStart` / `handleTouchMove`: the gesture start coordinates, the
last seen Y coordinate, the most recent Y velocity (px/ms) and the
`isGestureActive` flag. -/

structure TouchState where
  touchStartY : ℚ
  touchStartX : ℚ
  lastTouchY : ℚ
  velocityY : ℚ
  isGestureActive : Bool
  deriving Repr, DecidableEq

/-- `this.gestureThreshold = 50` (MobileController.js 18). -/
def MobileController.gestureThreshold : ℚ := 50

/-- `this.swipeVelocityThreshold = 0.5` (MobileController.js 19). -/
def MobileController.swipeVelocityThreshold : ℚ := 5/10

/-- `MobileController.detectSwipeGesture(event)` (MobileController.js
150-164): with `deltaY = lastTouchY - touchStartY` and
`deltaX = touches[0].clientX - touchStartX`, the gesture becomes active when
`|deltaY| > |deltaX|` and `|deltaY| > gestureThreshold`. -/
def MobileController.detectSwipeGesture (st : TouchState) (clientX : ℚ) : TouchState :=
  let deltaY := st.lastTouchY - st.touchStartY
  let deltaX := clientX - st.touchStartX
  if |deltaX| < |deltaY| ∧ MobileController.gestureThreshold < |deltaY| then
    { st with isGestureActive := true }
  else st

/-- The classification `MobileController.processGesture` makes of a completed
gesture (MobileController.js 166-187). -/
inductive GestureAction where
  | fastSwipeUp
  | fastSwipeDown
  | slowSwipeUp
  | slowSwipeDown
  | noGesture
  deriving Repr, DecidableEq

/-- `MobileController.processGesture()` (MobileController.js 166-187). -/
def MobileController.processGesture (st : TouchState) : GestureAction :=
  let deltaY := st.lastTouchY - st.touchStartY
  if MobileController.swipeVelocityThreshold < |st.velocityY| then
    if st.velocityY < 0 then .fastSwipeUp else .fastSwipeDown
  else if MobileController.gestureThreshold * 2 < |deltaY| then
    if deltaY < 0 then .slowSwipeUp else .slowSwipeDown
  else .noGesture

/-- The `ScrollController` navigation calls the gesture handlers make. -/
inductive NavAction where
  | scrollToNext
  | scrollToPrevious
  deriving Repr, DecidableEq

/-- Which navigation call each gesture classification triggers:
`handleSwipeUp` calls `scrollController.scrollToNext()` and `handleSwipeDown`
calls `scrollController.scrollToPrevious()` (MobileController.js 189-205),
while the slow-swipe handlers only show a hint overlay (207-215). -/
def gestureNavigation : GestureAction → Option NavAction
  | .fastSwipeUp => some .scrollToNext
  | .fastSwipeDown => some .scrollToPrevious
  | _ => none

/-- `MobileController.handleTouchEnd(event)` (MobileController.js 143-148):
processes the gesture only when one is active. -/
def MobileController.handleTouchEnd (st : TouchState) : Option GestureAction :=
  if st.isGestureActive then some (MobileController.processGesture st) else none

/-! ## TerminalUI (src/js/modules/TerminalUI.js) and PortfolioApp (src/js/main.js)

The terminal is modelled by its output lines (text plus CSS class), the input
field, and the command history.  `AppState` adds the `PortfolioApp`-level
effects of command execution: tour mode and the pending page navigation that
`navigateToSection` schedules.

`TerminalUI` extends `EventEmitter` (src/js/modules/EventEmitter.js, not part
of the sources); per the spec the system has "no concurrency coordination
beyond UI event callbacks" and only does "event routing", so `emit` is
modelled as synchronously invoking the registered listener
(`PortfolioApp.handleTerminalCommand`), with listener exceptions
propagating. -/

/-- One line appended to `#terminal-output` by `TerminalUI.addOutputLine`. -/
structure OutputLine where
  text : String
  cls : String
  deriving Repr, DecidableEq

/-- The `TerminalUI` state the claims are about. -/
structure TermState where
  commandHistory : List String
  historyIndex : Int
  inputValue : String
  currentLine : String
  output : List OutputLine
  deriving Repr, DecidableEq

/-- `TerminalUI` constructor state (TerminalUI.js 15-20). -/
def initialTermState : TermState :=
  { commandHistory := []
    historyIndex := -1
    inputValue := ""
    currentLine := ""
    output := [] }

/-- `TerminalUI.addOutputLine(text, className)` (TerminalUI.js 329-335). -/
def TerminalUI.addOutputLine (t : TermState) (text cls : String) : TermState :=
  { t with output := t.output ++ [{ text := text, cls := cls }] }

/-- `TerminalUI.showError(message)` (TerminalUI.js 401-403). -/
def TerminalUI.showError (t : TermState) (message : String) : TermState :=
  TerminalUI.addOutputLine t message "terminal-error"

/-- `TerminalUI.showResponse(lines)` on an array (TerminalUI.js 393-399). -/
def TerminalUI.showResponse (t : TermState) (lines : List String) : TermState :=
  lines.foldl (fun acc l => TerminalUI.addOutputLine acc l "terminal-response") t

/-- `TerminalUI.clear()` (TerminalUI.js 472-476). -/
def TerminalUI.clearOutput (t : TermState) : TermState :=
  { t with output := [] }

/-- `TerminalUI.clearInput()` (TerminalUI.js 316-321). -/
def TerminalUI.clearInput (t : TermState) : TermState :=
  { t with inputValue := "", currentLine := "" }

/-- JavaScript whitespace for `String.prototype.trim` (the characters this
codebase can encounter). -/
def jsIsSpace (c : Char) : Bool :=
  c == ' ' || c == '\t' || c == '\n' || c == '\r'

/-- `String.prototype.trim()`: strip leading and trailing whitespace. -/
def jsTrim (s : String) : String :=
  String.mk (((s.data.dropWhile jsIsSpace).reverse.dropWhile jsIsSpace).reverse)

/-- Worker for `String.prototype.split(' ')`. -/
def jsSplitAux : List Char → List Char → List String
  | [], acc => [String.mk acc.reverse]
  | c :: rest, acc =>
      if c == ' ' then String.mk acc.reverse :: jsSplitAux rest []
      else jsSplitAux rest (c :: acc)

/-- `String.prototype.split(' ')`: split on every single space (adjacent
spaces produce empty fields, as in JavaScript). -/
def jsSplit (s : String) : List String :=
  jsSplitAux s.data []

/-- `String.prototype.toLowerCase()` on the ASCII range. -/
def jsToLowerChar (c : Char) : Char :=
  if c.toNat < 65 ∨ 90 < c.toNat then c else Char.ofNat (c.toNat + 32)

/-- `String.prototype.toLowerCase()`. -/
def jsToLower (s : String) : String :=
  String.mk (s.data.map jsToLowerChar)

/-- `String.prototype.padEnd(n)` with spaces. -/
def padEnd (s : String) (n : Nat) : String :=
  s ++ String.mk (List.replicate (n - s.length) ' ')

/-- The registered commands and their descriptions, in the insertion order of
`TerminalUI.setupCommands` (TerminalUI.js 81-136). -/
def TerminalUI.commandDescriptions : List (String × String) :=
  [("help", "Show available commands"),
   ("clear", "Clear terminal output"),
   ("tour", "Start interactive 3D tour"),
   ("about", "Navigate to about section"),
   ("projects", "View projects portfolio"),
   ("contact", "Get contact information"),
   ("resume", "Download resume"),
   ("theme", "Change terminal theme"),
   ("whoami", "Display user information"),
   ("ls", "List available sections"),
   ("pwd", "Show current location")]

/-- `TerminalUI.showHelpCommand()` (TerminalUI.js 405-418). -/
def TerminalUI.showHelpCommand (t : TermState) : TermState :=
  TerminalUI.showResponse t
    (["", "=== AVAILABLE COMMANDS ===", ""] ++
      (TerminalUI.commandDescriptions.map fun nd => "  " ++ padEnd nd.1 12 ++ " - " ++ nd.2) ++
      [""])

/-- `TerminalUI.showWhoAmI()` (TerminalUI.js 420-434). -/
def TerminalUI.whoAmILines : List String :=
  ["", "👤 USER INFO", "", "  Name: Abhay Bhingradia", "  Role: Web Developer",
   "  Location: Portfolio Terminal", "  Status: Online",
   "  Skills: JavaScript, React, Three.js, Node.js", ""]

/-- `TerminalUI.showDirectoryListing()` (TerminalUI.js 436-448). -/
def TerminalUI.directoryListingLines : List String :=
  ["",
   "drwxr-xr-x  1 abhay  users   256 Jul 29 2025 about/",
   "drwxr-xr-x  1 abhay  users   512 Jul 29 2025 projects/",
   "drwxr-xr-x  1 abhay  users   128 Jul 29 2025 contact/",
   "-rw-r--r--  1 abhay  users  1024 Jul 29 2025 resume.pdf",
   "-rw-r--r--  1 abhay  users   256 Jul 29 2025 README.md",
   ""]

/-- `TerminalUI.showCurrentPath()` (TerminalUI.js 450-452). -/
def TerminalUI.currentPathLines : List String :=
  ["", "/home/portfolio/abhay.bhingradia.com", ""]

/-- The `PortfolioApp` state affected by terminal command handling
(src/js/main.js). -/
structure AppState where
  term : TermState
  tourMode : Bool
  pendingNavigation : Option String
  deriving Repr, DecidableEq

/-- `PortfolioApp` before any command: terminal fresh, no tour mode, no
pending navigation. -/
def initialAppState : AppState :=
  { term := initialTermState
    tourMode := false
    pendingNavigation := none }

/-- The `urls` map of `PortfolioApp.navigateToSection` (main.js 260-265). -/
def sectionUrls : String → Option String
  | "about" => some "/about.html"
  | "projects" => some "/projects.html"
  | "contact" => some "/contact.html"
  | "resume" => some "/resume.pdf"
  | _ => none

/-- `PortfolioApp.navigateToSection(section)` (main.js 259-283): prints the
navigation message and schedules the location change (modelled as the pending
navigation URL). -/
def PortfolioApp.navigateToSection (app : AppState) (sectionName : String) : AppState :=
  match sectionUrls sectionName with
  | some url =>
      { app with
          term := TerminalUI.showResponse app.term
            ["", "🚀 Navigating to " ++ sectionName ++ "...", ""]
          pendingNavigation := some url }
  | none => app

/-- `PortfolioApp.startTourMode()` (main.js 237-250). -/
def PortfolioApp.startTourMode (app : AppState) : AppState :=
  { app with
      tourMode := true
      term := TerminalUI.showResponse app.term
        ["", "🎯 TOUR MODE ACTIVATED", "", "Pointer locked to canvas.",
         "Click on laptop parts to explore different sections.",
         "Press ESC to exit tour mode.", ""] }

/-- `PortfolioApp.toggleTheme(themeName)` (main.js 296-304). -/
def PortfolioApp.toggleTheme (app : AppState) : AppState :=
  { app with
      term := TerminalUI.showResponse app.term
        ["", "Theme switching will be available in v2.1",
         "Current theme: Matrix Green", ""] }

/-- The help text of `PortfolioApp.showHelp()` (main.js 217-235). -/
def PortfolioApp.helpText : List String :=
  ["", "=== PORTFOLIO NAVIGATION COMMANDS ===", "",
   "  help      - Show this help message",
   "  tour      - Start interactive 3D tour",
   "  about     - Navigate to about section",
   "  projects  - View my projects",
   "  contact   - Get in touch",
   "  resume    - Download resume",
   "  clear     - Clear terminal output",
   "", "TIP: You can also scroll or click on 3D laptop parts!", ""]

/-- The instance methods `TerminalUI` defines (TerminalUI.js): the properties
available on `this.terminalUI` for a method call from main.js. -/
def TerminalUI.methodNames : List String :=
  ["init", "getDOMReferences", "setupEventListeners", "setupCommands",
   "setupTerminalBehavior", "handleKeyDown", "handleInput", "handleBlur",
   "focusInput", "updateCursor", "getTextWidth", "startCursorBlink",
   "processCommand", "executeCommand", "navigateHistory", "handleTabCompletion",
   "cancelCurrentCommand", "clearInput", "addPromptLine", "addOutputLine",
   "scrollToBottom", "showWelcomeMessage", "typewriterEffect", "typeLine",
   "sleep", "showResponse", "showError", "showHelpCommand", "showWhoAmI",
   "showDirectoryListing", "showCurrentPath", "showHint", "hideHint", "clear",
   "minimize", "restore", "showRestoreHint", "hideRestoreHint", "handleResize",
   "dispose"]

/-- The call `this.terminalUI.showHelp()` on main.js line 182.  JavaScript
method dispatch: were `showHelp` among `TerminalUI`'s methods it would be
invoked, but it is not (`TerminalUI`'s help printer is named
`showHelpCommand`), so the property access yields `undefined` and the call
throws a `TypeError`, modelled as the returned error message. -/
def PortfolioApp.callTerminalShowHelp (t : TermState) : TermState × Option String :=
  if TerminalUI.methodNames.contains "showHelp" then (t, none)
  else (t, some "this.terminalUI.showHelp is not a function")

/-- `PortfolioApp.handleTerminalCommand(command, args)` (main.js 146-185).
The second component is the exception the handler throws, if any. -/
def PortfolioApp.handleTerminalCommand (app : AppState) (command : String)
    (_args : List String) : AppState × Option String :=
  match command with
  | "help" => ({ app with term := TerminalUI.showResponse app.term PortfolioApp.helpText }, none)
  | "tour" => (PortfolioApp.startTourMode app, none)
  | "about" => (PortfolioApp.navigateToSection app "about", none)
  | "projects" => (PortfolioApp.navigateToSection app "projects", none)
  | "contact" => (PortfolioApp.navigateToSection app "contact", none)
  | "resume" => (PortfolioApp.navigateToSection app "resume", none)
  | "clear" => ({ app with term := TerminalUI.clearOutput app.term }, none)
  | "theme" => (PortfolioApp.toggleTheme app, none)
  | _ =>
      let t := TerminalUI.showError app.term ("Command not found: " ++ command)
      let r := PortfolioApp.callTerminalShowHelp t
      ({ app with term := r.1 }, r.2)

/-- What the `execute` closure of each registered command does
(TerminalUI.js 81-136): `help`, `clear`, `whoami`, `ls` and `pwd` act on the
terminal itself; the others emit a `command` event (only `theme` forwards its
arguments). -/
inductive CmdSpec where
  | helpCmd
  | clearCmd
  | whoamiCmd
  | lsCmd
  | pwdCmd
  | emitCmd (name : String) (forwardArgs : Bool)
  deriving Repr, DecidableEq

/-- `this.commands.get(command)`, with the commands registered by
`TerminalUI.setupCommands` (TerminalUI.js 81-136). -/
def TerminalUI.commandsGet : String → Option CmdSpec
  | "help" => some .helpCmd
  | "clear" => some .clearCmd
  | "tour" => some (.emitCmd "tour" false)
  | "about" => some (.emitCmd "about" false)
  | "projects" => some (.emitCmd "projects" false)
  | "contact" => some (.emitCmd "contact" false)
  | "resume" => some (.emitCmd "resume" false)
  | "theme" => some (.emitCmd "theme" true)
  | "whoami" => some .whoamiCmd
  | "ls" => some .lsCmd
  | "pwd" => some .pwdCmd
  | _ => none

/-- Run a registered command's `execute(args)`.  Emitting the `command` event
routes to `PortfolioApp.handleTerminalCommand`; the second component is the
exception thrown, if any. -/
def TerminalUI.runCmdSpec (app : AppState) (spec : CmdSpec) (args : List String) :
    AppState × Option String :=
  match spec with
  | .helpCmd => ({ app with term := TerminalUI.showHelpCommand app.term }, none)
  | .clearCmd => ({ app with term := TerminalUI.clearOutput app.term }, none)
  | .whoamiCmd =>
      ({ app with term := TerminalUI.showResponse app.term TerminalUI.whoAmILines }, none)
  | .lsCmd =>
      ({ app with term := TerminalUI.showResponse app.term TerminalUI.directoryListingLines },
        none)
  | .pwdCmd =>
      ({ app with term := TerminalUI.showResponse app.term TerminalUI.currentPathLines }, none)
  | .emitCmd name fwd => PortfolioApp.handleTerminalCommand app name (if fwd then args else [])

/-- `TerminalUI.executeCommand(command, args)` (TerminalUI.js 259-272): a
registered command runs inside `try`/`catch` (a thrown error becomes an
`Error executing command: ...` line); an unregistered one is emitted as a
`command` event with no surrounding `try`. -/
def TerminalUI.executeCommand (app : AppState) (command : String) (args : List String) :
    AppState × Option String :=
  match TerminalUI.commandsGet command with
  | some spec =>
      match TerminalUI.runCmdSpec app spec args with
      | (app2, none) => (app2, none)
      | (app2, some msg) =>
          ({ app2 with term := TerminalUI.showError app2.term ("Error executing command: " ++ msg) },
            none)
  | none => PortfolioApp.handleTerminalCommand app command args

/-- The tail of `TerminalUI.processCommand` after `executeCommand` returns
(TerminalUI.js 253-256): when no exception escaped, `clearInput()` runs;
when one did, it propagates and `clearInput` never runs. -/
def TerminalUI.finishCommand (r : AppState × Option String) : AppState × Option String :=
  match r with
  | (app2, none) => ({ app2 with term := TerminalUI.clearInput app2.term }, none)
  | (app2, some err) => (app2, some err)

/-- `TerminalUI.processCommand()` (TerminalUI.js 236-257): trims the current
line; an empty line only re-prompts; otherwise the prompt line is echoed, the
command is pushed onto the history (with `historyIndex` reset to the new
length), the line is split on spaces, the lowercased first token is executed
with the rest as arguments and the input is cleared.  The second component is
the exception that escapes, if any (in which case `clearInput` never runs). -/
def TerminalUI.processCommand (app : AppState) : AppState × Option String :=
  let command := jsTrim app.term.currentLine
  if command = "" then (app, none)
  else
    let hist := app.term.commandHistory ++ [command]
    let t := TerminalUI.addOutputLine app.term ("visitor@portfolio:~$ " ++ command)
      "terminal-command"
    let t := { t with commandHistory := hist, historyIndex := (hist.length : Int) }
    let parts := jsSplit command
    let cmd := jsToLower (parts.headD "")
    let args := parts.tail
    TerminalUI.finishCommand (TerminalUI.executeCommand { app with term := t } cmd args)

/-- `TerminalUI.navigateHistory(direction)` (TerminalUI.js 274-288). -/
def TerminalUI.navigateHistory (t : TermState) (direction : Int) : TermState :=
  if t.commandHistory.length = 0 then t
  else
    let idx := max (-1) (min (t.historyIndex + direction) ((t.commandHistory.length : Int) - 1))
    let v := if 0 ≤ idx then t.commandHistory.getD idx.toNat "" else ""
    { t with historyIndex := idx, inputValue := v, currentLine := v }

/-- The user-driven terminal interactions: typing a line and pressing Enter
(`handleInput` then `processCommand`), and ArrowUp/ArrowDown
(`navigateHistory`). -/
inductive TermOp where
  | enterLine (line : String)
  | navigate (direction : Int)
  deriving Repr

def AppState.termStep (app : AppState) : TermOp → AppState
  | .enterLine line =>
      (TerminalUI.processCommand
        { app with term := { app.term with inputValue := line, currentLine := line } }).1
  | .navigate d => { app with term := TerminalUI.navigateHistory app.term d }

/-- Run a sequence of terminal interactions from the fresh app state. -/
def runTermOps (ops : List TermOp) : AppState :=
  ops.foldl AppState.termStep initialAppState

/-! ## Failure handling (src/js/main.js, src/js/modules/{SceneManager,TerminalUI}.js) -/

/-- One `try`/`catch` block of the codebase. -/
structure CatchSite where
  file : String
  funcName : String
  wrapsInitialization : Bool
  deriving Repr, DecidableEq

/-- Every `try`/`catch` in the codebase: `PortfolioApp.init` (main.js 23-66),
`SceneManager.init` (SceneManager.js 45-76), `TerminalUI.init` (TerminalUI.js
31-54) and `TerminalUI.executeCommand` (TerminalUI.js 259-272), the last of
which wraps the execution of a registered terminal command rather than any
initialization path. -/
def catchSites : List CatchSite :=
  [{ file := "src/js/main.js", funcName := "PortfolioApp.init",
     wrapsInitialization := true },
   { file := "src/js/modules/SceneManager.js", funcName := "SceneManager.init",
     wrapsInitialization := true },
   { file := "src/js/modules/TerminalUI.js", funcName := "TerminalUI.init",
     wrapsInitialization := true },
   { file := "src/js/modules/TerminalUI.js", funcName := "TerminalUI.executeCommand",
     wrapsInitialization := false }]

/-- The page body after startup: either the normal application, or the
fallback interface installed by `PortfolioApp.handleInitializationError`. -/
inductive PageBody where
  | app
  | fallback (errMessage : String) (navLinks : List String)
  deriving Repr, DecidableEq

/-- `PortfolioApp.handleInitializationError(error)` (main.js 306-332):
replaces `document.body` with the fallback navigation interface showing the
error message and plain links. -/
def PortfolioApp.handleInitializationError (errMessage : String) : PageBody :=
  .fallback errMessage ["/about.html", "/projects.html", "/contact.html", "/resume.pdf"]

/-- The `try`/`catch` of `PortfolioApp.init` (main.js 23-66): when any
initialization step throws, the catch block runs
`handleInitializationError`. -/
def PortfolioApp.runInit : Except String Unit → PageBody
  | .ok _ => .app
  | .error msg => PortfolioApp.handleInitializationError msg

/-! ## SceneManager.dispose (src/js/modules/SceneManager.js 566-589) -/

/-- `object.material` of a scene-graph object: absent, a single material, or
an array of materials; each material carries whether `dispose()` has been
called on it. -/
inductive MaterialSlot where
  | noMaterial
  | single (disposed : Bool)
  | array (disposed : List Bool)
  deriving Repr, DecidableEq

/-- A scene-graph object as `scene.traverse` visits it: an optional geometry
(with its disposed flag) and its material slot. -/
structure Object3D where
  geometry : Option Bool
  material : MaterialSlot
  deriving Repr, DecidableEq

/-- The per-object body of the `scene.traverse` callback in
`SceneManager.dispose` (SceneManager.js 577-588): dispose the geometry if
present, and the material(s), whether single or an array. -/
def disposeObject (o : Object3D) : Object3D :=
  { geometry := o.geometry.map fun _ => true
    material :=
      match o.material with
      | .noMaterial => .noMaterial
      | .single _ => .single true
      | .array ms => .array (ms.map fun _ => true) }

/-- Whether an object's GPU resources are all released. -/
def Object3D.fullyDisposed (o : Object3D) : Bool :=
  (match o.geometry with
   | some d => d
   | none => true) &&
  (match o.material with
   | .noMaterial => true
   | .single d => d
   | .array ds => ds.all id)

/-- The `SceneManager` resources `dispose` releases: the pending
`requestAnimationFrame` id, the renderer (with its disposed flag), and the
scene graph, listed in `scene.traverse` visit order. -/
structure SceneResources where
  animationId : Option Nat
  frameCancelled : Bool
  renderer : Option Bool
  sceneObjects : List Object3D
  deriving Repr, DecidableEq

/-- `SceneManager.dispose()` (SceneManager.js 566-589): cancels the pending
animation frame if there is one, disposes the renderer if present, and walks
the scene graph disposing every geometry and material. -/
def SceneManager.dispose (s : SceneResources) : SceneResources :=
  { animationId := s.animationId
    frameCancelled := if s.animationId.isSome then true else s.frameCancelled
    renderer := s.renderer.map fun _ => true
    sceneObjects := s.sceneObjects.map disposeObject }

/-! ## Helper lemmas -/

theorem clamp01_nonneg (x : ℚ) : 0 ≤ clamp01 x := le_max_left 0 _

theorem clamp01_le_one (x : ℚ) : clamp01 x ≤ 1 := by
  unfold clamp01
  rcases le_total 1 x with h | h
  · simp [min_eq_left h]
  · exact max_le (by norm_num) (min_le_left 1 x)

theorem clamp01_eq_self {x : ℚ} (h0 : 0 ≤ x) (h1 : x ≤ 1) : clamp01 x = x := by
  unfold clamp01
  rw [min_eq_right h1, max_eq_right h0]

theorem clamp01_mono {x y : ℚ} (h : x ≤ y) : clamp01 x ≤ clamp01 y := by
  unfold clamp01
  exact max_le_max le_rfl (min_le_min le_rfl h)

theorem clamp01_idem (x : ℚ) : clamp01 (clamp01 x) = clamp01 x :=
  clamp01_eq_self (clamp01_nonneg x) (clamp01_le_one x)

/-- In every reachable `SceneManager` state the timeline only exists once the
anime.js import has completed: `setupDisassemblyAnimation` sets both fields in
the same callback. -/
theorem runScene_timeline_implies_anime (ops : List SceneOp) :
    (runScene ops).disassemblyTimeline.isSome → (runScene ops).animeLoaded = true := by
  suffices h : ∀ (s : SceneState),
      (s.disassemblyTimeline.isSome → s.animeLoaded = true) →
      ((ops.foldl SceneState.step s).disassemblyTimeline.isSome →
        (ops.foldl SceneState.step s).animeLoaded = true) by
    exact h initialSceneState (by simp [initialSceneState])
  induction ops with
  | nil => intro s hs; simpa using hs
  | cons op rest ih =>
    intro s hs
    refine ih (SceneState.step s op) ?_
    cases op with
    | setupDisassembly d =>
      simp [SceneState.step, SceneManager.setupDisassemblyAnimation]
    | updateScroll p =>
      intro hsome
      simp only [SceneState.step, SceneManager.updateScrollProgress] at hsome ⊢
      cases htl : s.disassemblyTimeline with
      | none => rw [htl] at hsome; simp at hsome
      | some t => exact hs (by rw [htl]; rfl)

/-! ## Claims -/

/-- C1: the disassembly animation is scroll-synced.  For every progress value
`p` passed to `SceneManager.updateScrollProgress`, the stored `scrollProgress`
becomes `clamp(p, 0, 1)`; in any reachable scene state in which the
disassembly timeline exists it is sought to exactly
`clamp(p, 0, 1) * timeline.duration`, and the resulting timeline position is
monotone non-decreasing in the clamped scroll progress. -/
theorem updateScrollProgress_scroll_synced (ops : List SceneOp) (t : Timeline) (p q : ℚ)
    (ht : (runScene ops).disassemblyTimeline = some t) (hd : 0 ≤ t.duration) :
    (∀ s : SceneState, (SceneManager.updateScrollProgress s p).scrollProgress = clamp01 p) ∧
    (SceneManager.updateScrollProgress (runScene ops) p).timelinePosition
      = some (clamp01 p * t.duration) ∧
    (clamp01 p ≤ clamp01 q →
      (SceneManager.updateScrollProgress (runScene ops) p).timelinePosition.getD 0
        ≤ (SceneManager.updateScrollProgress (runScene ops) q).timelinePosition.getD 0) := by
  have ha : (runScene ops).animeLoaded = true :=
    runScene_timeline_implies_anime ops (by rw [ht]; rfl)
  refine ⟨fun s => rfl, ?_, ?_⟩
  · simp [SceneManager.updateScrollProgress, SceneState.timelinePosition, ht, ha]
  · intro hpq
    simp only [SceneManager.updateScrollProgress, SceneState.timelinePosition, ht, ha,
      if_true, Option.map_some, Option.getD_some]
    exact mul_le_mul_of_nonneg_right hpq hd

/-- Witness for C1 at a concrete reachable state: after
`setupDisassemblyAnimation` builds a 1000-unit timeline, scrolling to raw
progress `3/2` clamps to `1` and seeks the timeline to `1000`. -/
theorem updateScrollProgress_scroll_synced_witness :
    (SceneManager.updateScrollProgress (runScene [SceneOp.setupDisassembly 1000])
        (3/2)).timelinePosition = some (clamp01 (3/2) * 1000) :=
  (updateScrollProgress_scroll_synced [SceneOp.setupDisassembly 1000]
    { duration := 1000, position := 0 } (3/2) (3/2) rfl (by norm_num)).2.1

/-- C2: the coordination layer maps scroll progress to exactly one of the four
phases — for `p ∈ [0,1]`, `getPhaseFromProgress` returns IDLE iff `p < 0.1`,
OPENING iff `0.1 ≤ p < 0.3`, DISASSEMBLING iff `0.3 ≤ p < 0.9` and COMPLETE
iff `p ≥ 0.9` — and whenever a progress update changes the phase,
`onPhaseChange` runs (the new phase is stored) and the terminal hint for the
new phase is shown. -/
theorem getPhaseFromProgress_partition_and_hint :
    (∀ p : ℚ, 0 ≤ p → p ≤ 1 →
      ((getPhaseFromProgress p = .IDLE ↔ p < 1/10) ∧
       (getPhaseFromProgress p = .OPENING ↔ 1/10 ≤ p ∧ p < 3/10) ∧
       (getPhaseFromProgress p = .DISASSEMBLING ↔ 3/10 ≤ p ∧ p < 9/10) ∧
       (getPhaseFromProgress p = .COMPLETE ↔ 9/10 ≤ p))) ∧
    (∀ (s : ScrollState) (delta : ℚ),
      getPhaseFromProgress (clamp01 (s.scrollProgress + delta)) ≠ s.currentPhase →
      (ScrollController.updateScrollProgress s delta).currentPhase
          = getPhaseFromProgress (clamp01 (s.scrollProgress + delta)) ∧
      (ScrollController.updateScrollProgress s delta).terminalHint
          = some (phaseHint (getPhaseFromProgress (clamp01 (s.scrollProgress + delta))))) := by
  constructor
  · intro p _ _
    unfold getPhaseFromProgress
    split_ifs with ha hb hc <;>
      refine ⟨?_, ?_, ?_, ?_⟩ <;>
      simp only [reduceCtorEq, false_iff, true_iff, iff_true, iff_false, not_and, not_lt,
        not_le] <;>
      first
        | linarith
        | (constructor <;> linarith)
        | (intro h; linarith)
  · intro s delta hne
    unfold ScrollController.updateScrollProgress ScrollController.updatePhase
    simp only [hne, ne_eq, not_false_iff, if_true]
    cases hph : getPhaseFromProgress (clamp01 (s.scrollProgress + delta)) <;>
      simp_all [ScrollController.onPhaseChange]

/-- Witness for C2: at progress `1/2` the phase is DISASSEMBLING, and updating
a fresh controller by `+1/2` changes the phase from IDLE to DISASSEMBLING and
shows its hint. -/
theorem getPhaseFromProgress_partition_and_hint_witness :
    (getPhaseFromProgress (1/2) = .DISASSEMBLING ↔ 3/10 ≤ (1/2 : ℚ) ∧ (1/2 : ℚ) < 9/10) ∧
    (ScrollController.updateScrollProgress initialScrollState (1/2)).terminalHint
      = some (phaseHint (getPhaseFromProgress (clamp01 (initialScrollState.scrollProgress + 1/2)))) := by
  have hc : clamp01 (initialScrollState.scrollProgress + 1/2) = 1/2 := by
    show clamp01 (0 + 1/2) = 1/2
    rw [zero_add]
    exact clamp01_eq_self (by norm_num) (by norm_num)
  have hne : getPhaseFromProgress (clamp01 (initialScrollState.scrollProgress + 1/2))
      ≠ initialScrollState.currentPhase := by
    rw [hc]
    show getPhaseFromProgress (1/2) ≠ Phase.IDLE
    unfold getPhaseFromProgress
    norm_num
    exact fun h => Phase.noConfusion h
  exact ⟨(getPhaseFromProgress_partition_and_hint.1 (1/2) (by norm_num) (by norm_num)).2.2.1,
    (getPhaseFromProgress_partition_and_hint.2 initialScrollState (1/2) hne).2⟩

/-- C3: touch gesture classification is deterministic.  A gesture becomes
active only when the vertical displacement exceeds the horizontal displacement
and the 50px threshold; on touch end an active gesture with
`|velocityY| > 0.5` is a fast swipe (up when `velocityY < 0`, triggering
`scrollToNext`; down otherwise, triggering `scrollToPrevious`), else a total
vertical displacement over `2 * threshold = 100` px is a slow swipe (no
navigation), and otherwise no navigation action is taken. -/
theorem detectSwipeGesture_processGesture_deterministic (st : TouchState) (clientX : ℚ) :
    ((MobileController.detectSwipeGesture st clientX).isGestureActive = true ↔
      (st.isGestureActive = true ∨
        (|clientX - st.touchStartX| < |st.lastTouchY - st.touchStartY| ∧
          MobileController.gestureThreshold < |st.lastTouchY - st.touchStartY|))) ∧
    (MobileController.handleTouchEnd st
      = if st.isGestureActive then some (MobileController.processGesture st) else none) ∧
    (MobileController.swipeVelocityThreshold < |st.velocityY| →
      ((st.velocityY < 0 →
          MobileController.processGesture st = .fastSwipeUp ∧
          gestureNavigation (MobileController.processGesture st) = some .scrollToNext) ∧
        (0 ≤ st.velocityY →
          MobileController.processGesture st = .fastSwipeDown ∧
          gestureNavigation (MobileController.processGesture st) = some .scrollToPrevious))) ∧
    (¬ MobileController.swipeVelocityThreshold < |st.velocityY| →
      ((MobileController.gestureThreshold * 2 < |st.lastTouchY - st.touchStartY| →
          (MobileController.processGesture st = .slowSwipeUp ∨
            MobileController.processGesture st = .slowSwipeDown) ∧
          gestureNavigation (MobileController.processGesture st) = none) ∧
        (¬ MobileController.gestureThreshold * 2 < |st.lastTouchY - st.touchStartY| →
          MobileController.processGesture st = .noGesture ∧
          gestureNavigation (MobileController.processGesture st) = none))) := by
  refine ⟨?_, rfl, ?_, ?_⟩
  · simp only [MobileController.detectSwipeGesture]
    split_ifs with h
    · simp [h]
    · simp only [not_and_or, not_lt] at h
      constructor
      · intro ha
        exact Or.inl ha
      · rintro (ha | ⟨h1, h2⟩)
        · exact ha
        · rcases h with h | h <;> linarith
  · intro hv
    constructor
    · intro hneg
      simp [MobileController.processGesture, hv, hneg, gestureNavigation]
    · intro hpos
      simp [MobileController.processGesture, hv, not_lt.mpr hpos, gestureNavigation]
  · intro hv
    constructor
    · intro hd
      simp only [MobileController.processGesture, hv, if_false, hd, if_true]
      rcases lt_or_le (st.lastTouchY - st.touchStartY) 0 with h | h
      · simp [h, gestureNavigation]
      · simp [not_lt.mpr h, gestureNavigation]
    · intro hd
      simp [MobileController.processGesture, hv, hd, gestureNavigation]

/-- Witness for C3: a touch that moved from y = 200 to y = 40 (160px up, no
horizontal motion) with velocity −1 px/ms is classified as a fast swipe up and
triggers `scrollToNext`. -/
theorem detectSwipeGesture_processGesture_witness :
    (MobileController.detectSwipeGesture
        { touchStartY := 200, touchStartX := 0, lastTouchY := 40, velocityY := -1,
          isGestureActive := false } 0).isGestureActive = true ∧
    MobileController.processGesture
        { touchStartY := 200, touchStartX := 0, lastTouchY := 40, velocityY := -1,
          isGestureActive := false } = .fastSwipeUp := by
  have h := detectSwipeGesture_processGesture_deterministic
    { touchStartY := 200, touchStartX := 0, lastTouchY := 40, velocityY := -1,
      isGestureActive := false } 0
  refine ⟨h.1.mpr (Or.inr ⟨by norm_num, ?_⟩), ((h.2.2.1 ?_).1 (by norm_num)).1⟩
  · show MobileController.gestureThreshold < |(40 : ℚ) - 200|
    unfold MobileController.gestureThreshold
    rw [show |(40 : ℚ) - 200| = 160 by norm_num [abs_of_nonpos]]
    norm_num
  · show MobileController.swipeVelocityThreshold < |(-1 : ℚ)|
    unfold MobileController.swipeVelocityThreshold
    rw [abs_neg, abs_one]
    norm_num

/-- `updatePhase` never changes the scroll progress. -/
theorem updatePhase_scrollProgress (s : ScrollState) :
    (ScrollController.updatePhase s).scrollProgress = s.scrollProgress := by
  simp only [ScrollController.updatePhase]
  split_ifs with h
  · cases hph : getPhaseFromProgress s.scrollProgress <;>
      simp_all [ScrollController.onPhaseChange]
  · rfl

/-- `updatePhase` never changes the scene. -/
theorem updatePhase_scene (s : ScrollState) :
    (ScrollController.updatePhase s).scene = s.scene := by
  simp only [ScrollController.updatePhase]
  split_ifs with h
  · cases hph : getPhaseFromProgress s.scrollProgress <;>
      simp_all [ScrollController.onPhaseChange]
  · rfl

/-- `setScrollProgress` stores the clamped value. -/
theorem setScrollProgress_scrollProgress (s : ScrollState) (v : ℚ) :
    (ScrollController.setScrollProgress s v).scrollProgress = clamp01 v := by
  unfold ScrollController.setScrollProgress
  rw [updatePhase_scrollProgress]

/-- `setScrollProgress` forwards the clamped value to the scene, which clamps
again. -/
theorem setScrollProgress_scene_scrollProgress (s : ScrollState) (v : ℚ) :
    (ScrollController.setScrollProgress s v).scene.scrollProgress = clamp01 v := by
  unfold ScrollController.setScrollProgress
  rw [updatePhase_scene]
  show clamp01 (clamp01 v) = clamp01 v
  exact clamp01_idem v

/-- `updateScrollProgress` stores the clamped sum. -/
theorem updateScrollProgress_scrollProgress (s : ScrollState) (d : ℚ) :
    (ScrollController.updateScrollProgress s d).scrollProgress
      = clamp01 (s.scrollProgress + d) := by
  unfold ScrollController.updateScrollProgress
  rw [updatePhase_scrollProgress]

/-- `updateScrollProgress` forwards the clamped sum to the scene. -/
theorem updateScrollProgress_scene_scrollProgress (s : ScrollState) (d : ℚ) :
    (ScrollController.updateScrollProgress s d).scene.scrollProgress
      = clamp01 (s.scrollProgress + d) := by
  unfold ScrollController.updateScrollProgress
  rw [updatePhase_scene]
  show clamp01 (clamp01 (s.scrollProgress + d)) = clamp01 (s.scrollProgress + d)
  exact clamp01_idem _

/-- C6: the programmatic scroll animation is simple interpolation.  A frame of
`animateToProgress` at elapsed time 0 leaves the progress at the start value;
once the elapsed time reaches the duration the progress equals the clamped
target and the promise resolves; and for elapsed times within the duration
(and an in-range target) the stored progress is exactly
`start + (target - start) * (1 - (1 - t)^3)` with `t = elapsed / duration`. -/
theorem animateToProgress_interpolation (s : ScrollState) (startP target duration : ℚ)
    (h0 : 0 ≤ startP) (h1 : startP ≤ 1) (hd : 0 < duration) :
    ((ScrollController.animFrame s startP target duration 0).scrollProgress = startP) ∧
    (∀ elapsed : ℚ, duration ≤ elapsed →
      (ScrollController.animFrame s startP target duration elapsed).scrollProgress
          = clamp01 target ∧
      ScrollController.animFrameResolves duration elapsed = true) ∧
    (∀ elapsed : ℚ, 0 ≤ elapsed → elapsed ≤ duration → 0 ≤ target → target ≤ 1 →
      (ScrollController.animFrame s startP target duration elapsed).scrollProgress
        = startP + (target - startP) * easeOutCubic (elapsed / duration)) := by
  refine ⟨?_, ?_, ?_⟩
  · unfold ScrollController.animFrame
    rw [setScrollProgress_scrollProgress]
    have : (0 : ℚ) / duration = 0 := zero_div _
    rw [this]
    have hmin : min (0 : ℚ) 1 = 0 := min_eq_left (by norm_num)
    rw [hmin]
    have : easeOutCubic 0 = 0 := by unfold easeOutCubic; ring
    rw [this, mul_zero, add_zero]
    exact clamp01_eq_self h0 h1
  · intro elapsed he
    have hone : (1 : ℚ) ≤ elapsed / duration := (one_le_div hd).mpr he
    have hmin : min (elapsed / duration) 1 = 1 := min_eq_right hone
    constructor
    · unfold ScrollController.animFrame
      rw [setScrollProgress_scrollProgress, hmin]
      have : easeOutCubic 1 = 1 := by unfold easeOutCubic; ring
      rw [this, mul_one]
      ring_nf
    · unfold ScrollController.animFrameResolves
      rw [hmin]
      simp
  · intro elapsed he0 he1 ht0 ht1
    have hq0 : 0 ≤ elapsed / duration := div_nonneg he0 hd.le
    have hq1 : elapsed / duration ≤ 1 := (div_le_one hd).mpr he1
    have hmin : min (elapsed / duration) 1 = elapsed / duration := min_eq_left hq1
    unfold ScrollController.animFrame
    rw [setScrollProgress_scrollProgress, hmin]
    set t := elapsed / duration with htdef
    have hbase0 : (0 : ℚ) ≤ 1 - t := by linarith
    have hbase1 : 1 - t ≤ 1 := by linarith
    have he0' : 0 ≤ easeOutCubic t := by
      unfold easeOutCubic
      have h3 : (1 - t)^3 ≤ 1 := by nlinarith [sq_nonneg (1 - t), sq_nonneg t]
      linarith
    have he1' : easeOutCubic t ≤ 1 := by
      unfold easeOutCubic
      have h3 : 0 ≤ (1 - t)^3 := pow_nonneg hbase0 3
      linarith
    have hcur0 : 0 ≤ startP + (target - startP) * easeOutCubic t := by
      nlinarith [mul_nonneg h0 (sub_nonneg.mpr he1'), mul_nonneg ht0 he0']
    have hcur1 : startP + (target - startP) * easeOutCubic t ≤ 1 := by
      nlinarith [mul_nonneg (sub_nonneg.mpr h1) (sub_nonneg.mpr he1'),
        mul_nonneg (sub_nonneg.mpr ht1) he0']
    exact clamp01_eq_self hcur0 hcur1

/-- Witness for C6 with start 0, target 1, duration 1000: the frame at
elapsed 0 stays at 0, the frame at elapsed 1000 lands on `clamp01 1` and
resolves, and the frame at elapsed 500 computes the eased interpolation. -/
theorem animateToProgress_interpolation_witness :
    ((ScrollController.animFrame initialScrollState 0 1 1000 0).scrollProgress = 0) ∧
    ((ScrollController.animFrame initialScrollState 0 1 1000 1000).scrollProgress
        = clamp01 1 ∧
      ScrollController.animFrameResolves 1000 1000 = true) ∧
    ((ScrollController.animFrame initialScrollState 0 1 1000 500).scrollProgress
        = 0 + (1 - 0) * easeOutCubic (500 / 1000)) := by
  have h := animateToProgress_interpolation initialScrollState 0 1 1000
    (by norm_num) (by norm_num) (by norm_num)
  exact ⟨h.1, h.2.1 1000 (by norm_num), h.2.2 500 (by norm_num) (by norm_num)
    (by norm_num) (by norm_num)⟩

/-- C7: `SceneManager.dispose` releases all GPU resources — after it runs the
pending animation frame is cancelled, the renderer is disposed, and every
object in the scene graph has its geometry and each of its materials (single
or array) disposed. -/
theorem dispose_releases_all_resources (s : SceneResources) (id : Nat) (r : Bool)
    (hid : s.animationId = some id) (hr : s.renderer = some r) :
    (SceneManager.dispose s).frameCancelled = true ∧
    (SceneManager.dispose s).renderer = some true ∧
    ∀ o ∈ (SceneManager.dispose s).sceneObjects, o.fullyDisposed = true := by
  refine ⟨?_, ?_, ?_⟩
  · simp [SceneManager.dispose, hid]
  · simp [SceneManager.dispose, hr]
  · intro o ho
    simp only [SceneManager.dispose, List.mem_map] at ho
    obtain ⟨o', _, rfl⟩ := ho
    unfold Object3D.fullyDisposed disposeObject
    cases o'.geometry <;> cases o'.material <;> simp [List.all_eq_true]

/-- Witness for C7: a scene with a pending frame, a live renderer and two
objects (one with a single material, one with a geometry and a two-material
array) is fully released by `dispose`. -/
theorem dispose_releases_all_resources_witness :
    (SceneManager.dispose
        { animationId := some 7, frameCancelled := false, renderer := some false,
          sceneObjects :=
            [{ geometry := none, material := .single false },
             { geometry := some false, material := .array [false, false] }] }).frameCancelled
        = true ∧
    (SceneManager.dispose
        { animationId := some 7, frameCancelled := false, renderer := some false,
          sceneObjects :=
            [{ geometry := none, material := .single false },
             { geometry := some false, material := .array [false, false] }] }).renderer
        = some true ∧
    ∀ o ∈ (SceneManager.dispose
        { animationId := some 7, frameCancelled := false, renderer := some false,
          sceneObjects :=
            [{ geometry := none, material := .single false },
             { geometry := some false, material := .array [false, false] }] }).sceneObjects,
      o.fullyDisposed = true :=
  dispose_releases_all_resources
    { animationId := some 7, frameCancelled := false, renderer := some false,
      sceneObjects :=
        [{ geometry := none, material := .single false },
         { geometry := some false, material := .array [false, false] }] } 7 false rfl rfl

/-- C10: phase snapping is selective and idempotent — `snapToPhase` sets the
progress exactly to the first value among `[0, 0.25, 0.65, 1]` at strict
distance under `0.05` from the current progress, leaves it unchanged when no
such value exists, and applying it twice yields the same progress as once. -/
theorem snapToPhase_selective_idempotent (s : ScrollState) :
    (∀ v : ℚ,
      phaseProgresses.find? (fun w => |s.scrollProgress - w| < snapThreshold) = some v →
      (ScrollController.snapToPhase s).scrollProgress = v) ∧
    (phaseProgresses.find? (fun w => |s.scrollProgress - w| < snapThreshold) = none →
      (ScrollController.snapToPhase s).scrollProgress = s.scrollProgress) ∧
    (ScrollController.snapToPhase (ScrollController.snapToPhase s)).scrollProgress
      = (ScrollController.snapToPhase s).scrollProgress := by
  have hclamp : ∀ v ∈ phaseProgresses, clamp01 v = v := by
    intro v hv
    fin_cases hv <;> simp [clamp01, min_def, max_def] <;> norm_num
  have hself : ∀ v ∈ phaseProgresses,
      phaseProgresses.find? (fun w => |v - w| < snapThreshold) = some v := by
    intro v hv
    fin_cases hv <;>
      simp [phaseProgresses, List.find?, snapThreshold, abs_lt] <;> norm_num
  have hset : ∀ (u : ScrollState) (v : ℚ),
      phaseProgresses.find? (fun w => |u.scrollProgress - w| < snapThreshold) = some v →
      (ScrollController.snapToPhase u).scrollProgress = v := by
    intro u v hv
    have hmem : v ∈ phaseProgresses := List.mem_of_find?_eq_some hv
    unfold ScrollController.snapToPhase
    rw [hv, setScrollProgress_scrollProgress]
    exact hclamp v hmem
  refine ⟨hset s, ?_, ?_⟩
  · intro hnone
    unfold ScrollController.snapToPhase
    rw [hnone]
  · cases hfind : phaseProgresses.find? (fun w => |s.scrollProgress - w| < snapThreshold) with
    | none =>
      have h1 : ScrollController.snapToPhase s = s := by
        unfold ScrollController.snapToPhase
        rw [hfind]
      rw [h1, h1]
    | some v =>
      have hmem : v ∈ phaseProgresses := List.mem_of_find?_eq_some hfind
      have h1 : (ScrollController.snapToPhase s).scrollProgress = v := hset s v hfind
      have h2 : phaseProgresses.find?
          (fun w => |(ScrollController.snapToPhase s).scrollProgress - w| < snapThreshold)
          = some v := by
        rw [h1]
        exact hself v hmem
      have h3 : (ScrollController.snapToPhase (ScrollController.snapToPhase s)).scrollProgress
          = v := hset (ScrollController.snapToPhase s) v h2
      rw [h3, h1]

/-- Witness for C10: at progress `0.27` the first (and only) snap target
within `0.05` is `0.25`, and `snapToPhase` lands there. -/
theorem snapToPhase_selective_idempotent_witness :
    (ScrollController.snapToPhase
        { initialScrollState with scrollProgress := 27/100 }).scrollProgress = 25/100 :=
  (snapToPhase_selective_idempotent
    { initialScrollState with scrollProgress := 27/100 }).1 (25/100) (by
      simp [initialScrollState, phaseProgresses, List.find?, snapThreshold, abs_lt]
      norm_num)

/-- C8: scroll progress is always within `[0,1]` — every mutation goes
through `updateScrollProgress` or `setScrollProgress`, which clamp, and
`SceneManager.updateScrollProgress` clamps again, so after any sequence of
wheel, touch, keyboard, snap, animation-frame and raw mutator operations the
invariant `0 ≤ scrollProgress ≤ 1` holds in both the `ScrollController` and
the `SceneManager`. -/
theorem scrollProgress_always_in_unit_interval (ops : List ScrollOp) :
    0 ≤ (runScroll ops).scrollProgress ∧ (runScroll ops).scrollProgress ≤ 1 ∧
    0 ≤ (runScroll ops).scene.scrollProgress ∧
    (runScroll ops).scene.scrollProgress ≤ 1 := by
  have hupd : ∀ (u : ScrollState) (d : ℚ),
      0 ≤ (ScrollController.updateScrollProgress u d).scrollProgress ∧
      (ScrollController.updateScrollProgress u d).scrollProgress ≤ 1 ∧
      0 ≤ (ScrollController.updateScrollProgress u d).scene.scrollProgress ∧
      (ScrollController.updateScrollProgress u d).scene.scrollProgress ≤ 1 := by
    intro u d
    rw [updateScrollProgress_scrollProgress, updateScrollProgress_scene_scrollProgress]
    exact ⟨clamp01_nonneg _, clamp01_le_one _, clamp01_nonneg _, clamp01_le_one _⟩
  have hsetl : ∀ (u : ScrollState) (v : ℚ),
      0 ≤ (ScrollController.setScrollProgress u v).scrollProgress ∧
      (ScrollController.setScrollProgress u v).scrollProgress ≤ 1 ∧
      0 ≤ (ScrollController.setScrollProgress u v).scene.scrollProgress ∧
      (ScrollController.setScrollProgress u v).scene.scrollProgress ≤ 1 := by
    intro u v
    rw [setScrollProgress_scrollProgress, setScrollProgress_scene_scrollProgress]
    exact ⟨clamp01_nonneg _, clamp01_le_one _, clamp01_nonneg _, clamp01_le_one _⟩
  have hsnap : ∀ u : ScrollState,
      (0 ≤ u.scrollProgress ∧ u.scrollProgress ≤ 1 ∧
        0 ≤ u.scene.scrollProgress ∧ u.scene.scrollProgress ≤ 1) →
      (0 ≤ (ScrollController.snapToPhase u).scrollProgress ∧
        (ScrollController.snapToPhase u).scrollProgress ≤ 1 ∧
        0 ≤ (ScrollController.snapToPhase u).scene.scrollProgress ∧
        (ScrollController.snapToPhase u).scene.scrollProgress ≤ 1) := by
    intro u hu
    unfold ScrollController.snapToPhase
    cases hfind : phaseProgresses.find?
        (fun w => |u.scrollProgress - w| < snapThreshold) with
    | none => exact hu
    | some v => exact hsetl u v
  have hstep : ∀ (u : ScrollState) (op : ScrollOp),
      (0 ≤ u.scrollProgress ∧ u.scrollProgress ≤ 1 ∧
        0 ≤ u.scene.scrollProgress ∧ u.scene.scrollProgress ≤ 1) →
      (0 ≤ (ScrollState.step u op).scrollProgress ∧
        (ScrollState.step u op).scrollProgress ≤ 1 ∧
        0 ≤ (ScrollState.step u op).scene.scrollProgress ∧
        (ScrollState.step u op).scene.scrollProgress ≤ 1) := by
    intro u op hu
    cases op with
    | wheel d =>
      simp only [ScrollState.step, ScrollController.handleWheel]
      exact hupd _ _
    | touchMove d =>
      simp only [ScrollState.step, ScrollController.handleTouchMove]
      split_ifs with h1 h2
      · exact hupd _ _
      · exact hupd _ _
      · exact hu
    | key k =>
      cases k with
      | arrowDown =>
        simp only [ScrollState.step, ScrollController.handleKeyboard]; exact hupd _ _
      | pageDown =>
        simp only [ScrollState.step, ScrollController.handleKeyboard]; exact hupd _ _
      | space =>
        simp only [ScrollState.step, ScrollController.handleKeyboard]; exact hupd _ _
      | arrowUp =>
        simp only [ScrollState.step, ScrollController.handleKeyboard]; exact hupd _ _
      | pageUp =>
        simp only [ScrollState.step, ScrollController.handleKeyboard]; exact hupd _ _
      | homeKey =>
        simp only [ScrollState.step, ScrollController.handleKeyboard]; exact hsetl _ _
      | endKey =>
        simp only [ScrollState.step, ScrollController.handleKeyboard]; exact hsetl _ _
      | otherKey =>
        simp only [ScrollState.step, ScrollController.handleKeyboard]; exact hu
    | scrollEndSnap => exact hsnap u hu
    | animFrame a b c d =>
      simp only [ScrollState.step, ScrollController.animFrame]
      exact hsetl _ _
    | setProgress v =>
      simp only [ScrollState.step]
      exact hsetl _ _
    | updateProgress d =>
      simp only [ScrollState.step]
      exact hupd _ _
  suffices h : ∀ s : ScrollState,
      (0 ≤ s.scrollProgress ∧ s.scrollProgress ≤ 1 ∧
        0 ≤ s.scene.scrollProgress ∧ s.scene.scrollProgress ≤ 1) →
      (0 ≤ (ops.foldl ScrollState.step s).scrollProgress ∧
        (ops.foldl ScrollState.step s).scrollProgress ≤ 1 ∧
        0 ≤ (ops.foldl ScrollState.step s).scene.scrollProgress ∧
        (ops.foldl ScrollState.step s).scene.scrollProgress ≤ 1) by
    exact h initialScrollState
      (by norm_num [initialScrollState, initialSceneState])
  induction ops with
  | nil => exact fun s hs => hs
  | cons op rest ih =>
    intro s hs
    exact ih (ScrollState.step s op) (hstep s op hs)

/-- `showResponse` only appends output lines: the command history and history
index are untouched. -/
theorem showResponse_history (t : TermState) (ls : List String) :
    (TerminalUI.showResponse t ls).commandHistory = t.commandHistory ∧
    (TerminalUI.showResponse t ls).historyIndex = t.historyIndex := by
  induction ls generalizing t with
  | nil => exact ⟨rfl, rfl⟩
  | cons l rest ih => exact ih (TerminalUI.addOutputLine t l "terminal-response")

/-- `PortfolioApp.handleTerminalCommand` never touches the command history. -/
theorem handleTerminalCommand_history (app : AppState) (cmd : String) (args : List String) :
    (PortfolioApp.handleTerminalCommand app cmd args).1.term.commandHistory
      = app.term.commandHistory ∧
    (PortfolioApp.handleTerminalCommand app cmd args).1.term.historyIndex
      = app.term.historyIndex := by
  unfold PortfolioApp.handleTerminalCommand
  split
  · exact showResponse_history _ _
  · exact showResponse_history _ _
  · exact showResponse_history _ _
  · exact showResponse_history _ _
  · exact showResponse_history _ _
  · exact showResponse_history _ _
  · exact ⟨rfl, rfl⟩
  · exact showResponse_history _ _
  · unfold PortfolioApp.callTerminalShowHelp
    split_ifs <;> exact ⟨rfl, rfl⟩

/-- Running a registered command's `execute` never touches the command
history. -/
theorem runCmdSpec_history (app : AppState) (spec : CmdSpec) (args : List String) :
    (TerminalUI.runCmdSpec app spec args).1.term.commandHistory
      = app.term.commandHistory ∧
    (TerminalUI.runCmdSpec app spec args).1.term.historyIndex
      = app.term.historyIndex := by
  cases spec with
  | helpCmd => exact showResponse_history _ _
  | clearCmd => exact ⟨rfl, rfl⟩
  | whoamiCmd => exact showResponse_history _ _
  | lsCmd => exact showResponse_history _ _
  | pwdCmd => exact showResponse_history _ _
  | emitCmd name fwd => exact handleTerminalCommand_history app name (if fwd then args else [])

/-- `executeCommand` never touches the command history. -/
theorem executeCommand_history (app : AppState) (cmd : String) (args : List String) :
    (TerminalUI.executeCommand app cmd args).1.term.commandHistory
      = app.term.commandHistory ∧
    (TerminalUI.executeCommand app cmd args).1.term.historyIndex
      = app.term.historyIndex := by
  unfold TerminalUI.executeCommand
  cases hc : TerminalUI.commandsGet cmd with
  | none => exact handleTerminalCommand_history app cmd args
  | some spec =>
    have hrun := runCmdSpec_history app spec args
    rcases hr : TerminalUI.runCmdSpec app spec args with ⟨app2, err⟩
    rw [hr] at hrun
    dsimp only
    rw [hr]
    cases err with
    | none => exact hrun
    | some msg => exact hrun

/-- `finishCommand` never touches the command history. -/
theorem finishCommand_history (r : AppState × Option String) :
    (TerminalUI.finishCommand r).1.term.commandHistory = r.1.term.commandHistory ∧
    (TerminalUI.finishCommand r).1.term.historyIndex = r.1.term.historyIndex := by
  rcases r with ⟨app2, err⟩
  cases err <;> exact ⟨rfl, rfl⟩

/-- A non-empty command line appends the trimmed command to the history and
sets the history index to the new length, whether or not execution throws. -/
theorem processCommand_history_fields (app : AppState)
    (hcmd : ¬ jsTrim app.term.currentLine = "") :
    (TerminalUI.processCommand app).1.term.commandHistory
      = app.term.commandHistory ++ [jsTrim app.term.currentLine] ∧
    (TerminalUI.processCommand app).1.term.historyIndex
      = ((app.term.commandHistory ++ [jsTrim app.term.currentLine]).length : Int) := by
  simp only [TerminalUI.processCommand, hcmd, if_false]
  exact ⟨((finishCommand_history _).1).trans ((executeCommand_history _ _ _).1),
    ((finishCommand_history _).2).trans ((executeCommand_history _ _ _).2)⟩

/-- An empty command line leaves the whole app state unchanged. -/
theorem processCommand_empty (app : AppState)
    (hcmd : jsTrim app.term.currentLine = "") :
    TerminalUI.processCommand app = (app, none) := by
  simp only [TerminalUI.processCommand, hcmd, if_pos]

/-- `processCommand` keeps the history index within `[-1, history length]`. -/
theorem processCommand_inv (app : AppState)
    (h : -1 ≤ app.term.historyIndex ∧
      app.term.historyIndex ≤ (app.term.commandHistory.length : Int)) :
    -1 ≤ (TerminalUI.processCommand app).1.term.historyIndex ∧
    (TerminalUI.processCommand app).1.term.historyIndex
      ≤ ((TerminalUI.processCommand app).1.term.commandHistory.length : Int) := by
  by_cases hcmd : jsTrim app.term.currentLine = ""
  · rw [processCommand_empty app hcmd]
    exact h
  · obtain ⟨h1, h2⟩ := processCommand_history_fields app hcmd
    rw [h1, h2]
    constructor
    · omega
    · omega

/-- `navigateHistory` on a non-empty history clamps the index into
`[-1, length - 1]` and loads the input field accordingly. -/
theorem navigateHistory_loads_input (t : TermState) (dir : Int)
    (hne : t.commandHistory ≠ []) :
    (-1 ≤ (TerminalUI.navigateHistory t dir).historyIndex ∧
      (TerminalUI.navigateHistory t dir).historyIndex
        ≤ ((TerminalUI.navigateHistory t dir).commandHistory.length : Int) - 1) ∧
    (0 ≤ (TerminalUI.navigateHistory t dir).historyIndex →
      (TerminalUI.navigateHistory t dir).inputValue
        = (TerminalUI.navigateHistory t dir).commandHistory.getD
            (TerminalUI.navigateHistory t dir).historyIndex.toNat "") ∧
    ((TerminalUI.navigateHistory t dir).historyIndex = -1 →
      (TerminalUI.navigateHistory t dir).inputValue = "") := by
  have hlen : ¬ t.commandHistory.length = 0 := by
    simpa [List.length_eq_zero] using hne
  simp only [TerminalUI.navigateHistory, hlen, if_false]
  refine ⟨⟨le_max_left _ _, ?_⟩, ?_, ?_⟩
  · simp only [max_le_iff]
    exact ⟨by omega, min_le_right _ _⟩
  · intro hge
    rw [if_pos hge]
  · intro heq
    rw [heq]
    simp

/-- C9: command history navigation is bounds-safe and consistent.  For every
sequence of `processCommand`/`navigateHistory` interactions, `navigateHistory`
on an empty history is a no-op; the history index stays within
`[-1, commandHistory.length]`; and on a non-empty history, after any
`navigateHistory` call the input field holds `commandHistory[historyIndex]`
when `historyIndex ≥ 0` and the empty string when `historyIndex = -1`. -/
theorem commandHistory_navigation_safe (ops : List TermOp) (dir : Int) :
    ((runTermOps ops).term.commandHistory = [] →
      TerminalUI.navigateHistory (runTermOps ops).term dir = (runTermOps ops).term) ∧
    (-1 ≤ (runTermOps ops).term.historyIndex ∧
      (runTermOps ops).term.historyIndex
        ≤ ((runTermOps ops).term.commandHistory.length : Int)) ∧
    ((runTermOps ops).term.commandHistory ≠ [] →
      (0 ≤ (TerminalUI.navigateHistory (runTermOps ops).term dir).historyIndex →
        (TerminalUI.navigateHistory (runTermOps ops).term dir).inputValue
          = (TerminalUI.navigateHistory (runTermOps ops).term dir).commandHistory.getD
              (TerminalUI.navigateHistory (runTermOps ops).term dir).historyIndex.toNat "") ∧
      ((TerminalUI.navigateHistory (runTermOps ops).term dir).historyIndex = -1 →
        (TerminalUI.navigateHistory (runTermOps ops).term dir).inputValue = "")) := by
  have hstep : ∀ (app : AppState) (op : TermOp),
      (-1 ≤ app.term.historyIndex ∧
        app.term.historyIndex ≤ (app.term.commandHistory.length : Int)) →
      (-1 ≤ (AppState.termStep app op).term.historyIndex ∧
        (AppState.termStep app op).term.historyIndex
          ≤ ((AppState.termStep app op).term.commandHistory.length : Int)) := by
    intro app op h
    cases op with
    | enterLine line =>
      exact processCommand_inv
        { app with term := { app.term with inputValue := line, currentLine := line } } h
    | navigate d =>
      simp only [AppState.termStep]
      by_cases hne : app.term.commandHistory = []
      · have hnoop : TerminalUI.navigateHistory app.term d = app.term := by
          simp [TerminalUI.navigateHistory, hne]
        rw [hnoop]
        exact h
      · have hb := (navigateHistory_loads_input app.term d hne).1
        exact ⟨hb.1, by omega⟩
  have hInv : -1 ≤ (runTermOps ops).term.historyIndex ∧
      (runTermOps ops).term.historyIndex
        ≤ ((runTermOps ops).term.commandHistory.length : Int) := by
    suffices h : ∀ app : AppState,
        (-1 ≤ app.term.historyIndex ∧
          app.term.historyIndex ≤ (app.term.commandHistory.length : Int)) →
        (-1 ≤ (ops.foldl AppState.termStep app).term.historyIndex ∧
          (ops.foldl AppState.termStep app).term.historyIndex
            ≤ ((ops.foldl AppState.termStep app).term.commandHistory.length : Int)) by
      exact h initialAppState (by norm_num [initialAppState, initialTermState])
    induction ops with
    | nil => exact fun app h => h
    | cons op rest ih =>
      intro app h
      exact ih (AppState.termStep app op) (hstep app op h)
  refine ⟨?_, hInv, ?_⟩
  · intro hempty
    simp [TerminalUI.navigateHistory, hempty]
  · intro hne
    exact (navigateHistory_loads_input (runTermOps ops).term dir hne).2

/-- Witness for C9: on the fresh terminal (empty history) an ArrowUp
(`navigateHistory (-1)`) is a no-op, and the initial history index `-1`
satisfies the bounds. -/
theorem commandHistory_navigation_safe_witness :
    TerminalUI.navigateHistory (runTermOps []).term (-1) = (runTermOps []).term ∧
    (-1 ≤ (runTermOps []).term.historyIndex ∧
      (runTermOps []).term.historyIndex
        ≤ (((runTermOps []).term.commandHistory.length : Int))) :=
  ⟨(commandHistory_navigation_safe [] (-1)).1 rfl,
   (commandHistory_navigation_safe [] (-1)).2.1⟩

/-- C4 (code bug at the unknown-command path): entering `foo` echoes the
prompt line and prints `Command not found: foo`, but then the handler calls
`this.terminalUI.showHelp()`, which does not exist on `TerminalUI`, so a
`TypeError` is thrown before any help text is printed — and the escaping
exception also prevents `clearInput`, leaving `foo` in the input field. -/
theorem unknown_command_throws_instead_of_help :
    (TerminalUI.processCommand
        { initialAppState with
            term := { initialTermState with inputValue := "foo", currentLine := "foo" } }).2
      = some "this.terminalUI.showHelp is not a function" ∧
    (TerminalUI.processCommand
        { initialAppState with
            term := { initialTermState with
                        inputValue := "foo", currentLine := "foo" } }).1.term.output
      = [{ text := "visitor@portfolio:~$ foo", cls := "terminal-command" },
         { text := "Command not found: foo", cls := "terminal-error" }] ∧
    (TerminalUI.processCommand
        { initialAppState with
            term := { initialTermState with
                        inputValue := "foo", currentLine := "foo" } }).1.term.inputValue
      = "foo" := by
  refine ⟨by decide, by decide, by decide⟩

/-- C5 counterexample: not every `try`/`catch` in the codebase wraps an
initialization path — `TerminalUI.executeCommand` wraps the execution of a
registered terminal command. -/
theorem not_every_catch_wraps_init :
    ¬ (∀ site ∈ catchSites, site.wrapsInitialization = true) := by
  intro h
  have hx := h ⟨"src/js/modules/TerminalUI.js", "TerminalUI.executeCommand", false⟩
    (by simp [catchSites])
  simp at hx

/-- C5 (amended): every `try`/`catch` in the codebase wraps an initialization
path except the one in `TerminalUI.executeCommand`, which wraps registered
command execution (no exception escapes it); and when initialization throws,
`handleInitializationError` replaces the page body with the fallback
navigation interface. -/
theorem tryCatch_wraps_init_and_command_execution :
    (∀ site ∈ catchSites, site.wrapsInitialization = true ∨
      site.funcName = "TerminalUI.executeCommand") ∧
    (∀ msg : String, PortfolioApp.runInit (.error msg)
      = .fallback msg ["/about.html", "/projects.html", "/contact.html", "/resume.pdf"]) ∧
    (∀ (app : AppState) (cmd : String) (args : List String) (spec : CmdSpec),
      TerminalUI.commandsGet cmd = some spec →
      (TerminalUI.executeCommand app cmd args).2 = none) := by
  refine ⟨?_, fun msg => rfl, ?_⟩
  · intro site hs
    fin_cases hs <;> simp [catchSites]
  · intro app cmd args spec h
    unfold TerminalUI.executeCommand
    rw [h]
    dsimp only
    rcases hr : TerminalUI.runCmdSpec app spec args with ⟨app2, err⟩
    cases err <;> rfl

/-- Witness for C5 (amended): the registered `help` command executes with no
exception escaping `executeCommand`. -/
theorem tryCatch_wraps_init_and_command_execution_witness :
    (TerminalUI.executeCommand initialAppState "help" []).2 = none :=
  tryCatch_wraps_init_and_command_execution.2.2 initialAppState "help" [] CmdSpec.helpCmd rfl
